import Mathlib

/-!
Shallow embedding of `scripts/generate_video.py` (Veo video generation CLI).

The script resolves a model alias, snaps the requested duration to a valid
value, builds a keyword-argument dictionary for the generation config,
polls an operation, and resolves each returned item to an output file.
We embed the pure decision logic: dictionaries become ordered association
lists, Python truthiness becomes explicit predicates, `pathlib.PurePath`
operations (`parent`, `name`, `stem`, `suffix`, `with_suffix`, `/`) are
modelled for paths without trailing separators, and file contents are
abstracted by a `readFile : String → List Nat` oracle.
-/

namespace GenerateVideo

/-- Python `str.lower()` restricted to the ASCII range, which covers every
string this script compares (alias keys and file extensions). -/
def pyLower (s : String) : String := String.mk (s.toList.map Char.toLower)

/-- Python `pre in s` / `str.startswith` helpers, written over the character
list so they compute by kernel reduction. `py_startswith s pre` is
`s.startswith(pre)`. -/
def py_startswith (s pre : String) : Bool := pre.toList.isPrefixOf s.toList

/-- Python `c in s` for a single-character needle: some character of `s`
equals `c`. -/
def py_contains (s : String) (c : Char) : Bool := s.toList.contains c

/-- Python truthiness of an optional string: `None` and `""` are falsy. -/
def pyTruthyStr (o : Option String) : Bool :=
  match o with
  | none => false
  | some s => !(s == "")

/-- Python truthiness of an optional bytes value: `None` and `b""` are falsy. -/
def pyTruthyBytes (o : Option (List Nat)) : Bool :=
  match o with
  | none => false
  | some bs => !bs.isEmpty

/-- Index of the last occurrence of `c` in a character list (Python `str.rfind`),
`none` when absent. -/
def rfindIdx (c : Char) : List Char → Option Nat
  | [] => none
  | a :: as =>
    match rfindIdx c as with
    | some i => some (i + 1)
    | none => if a = c then some 0 else none

/-- The `pathlib` file-name suffix: the part of the name from its last dot on,
provided that dot is neither the first nor the last character; `""` otherwise. -/
def pySuffix (name : String) : String :=
  let cs := name.toList
  match rfindIdx '.' cs with
  | some i => if 0 < i ∧ i + 1 < cs.length then String.mk (cs.drop i) else ""
  | none => ""

/-- The `pathlib` stem: the file name with `pySuffix` removed. -/
def pyStem (name : String) : String :=
  let cs := name.toList
  match rfindIdx '.' cs with
  | some i => if 0 < i ∧ i + 1 < cs.length then String.mk (cs.take i) else name
  | none => name

/-- Model of `pathlib.PurePath` as used by the script: a parent directory
and a final component. -/
structure PyPath where
  parent : String
  name : String
deriving DecidableEq, Repr

/-- Embedding of `pathlib.Path(s)` for a plain relative path: split at the last `/`;
a bare file name has parent `"."`. -/
def mkPath (s : String) : PyPath :=
  let cs := s.toList
  match rfindIdx '/' cs with
  | some i => ⟨String.mk (cs.take i), String.mk (cs.drop (i + 1))⟩
  | none => ⟨".", s⟩

/-- Embedding of `PurePath.with_suffix`: drop the old suffix from the name (leaving the
stem) and append the new one. -/
def with_suffix (p : PyPath) (suffix : String) : PyPath :=
  ⟨p.parent, pyStem p.name ++ suffix⟩

/-- The `MODEL_ALIASES` dictionary from the script, in insertion order. -/
def MODEL_ALIASES : List (String × String) :=
  [("fast",    "veo-3.1-fast-generate-preview"),
   ("quality", "veo-3.1-generate-preview"),
   ("3.1",     "veo-3.1-generate-preview"),
   ("3.1fast", "veo-3.1-fast-generate-preview"),
   ("3.0",     "veo-3.0-generate-001"),
   ("3.0fast", "veo-3.0-fast-generate-001"),
   ("2.0",     "veo-2.0-generate-001"),
   ("2",       "veo-2.0-generate-001")]

/-- Embedding of `resolve_model`: `MODEL_ALIASES.get(name.lower(), name)`. -/
def resolve_model (name : String) : String :=
  (MODEL_ALIASES.lookup (pyLower name)).getD name

/-- In the script `VALID_DURATIONS` is the Python set literal containing 4, 6 and 8.
CPython stores small integers at slot `hash(x) mod 8` of the initial table
(4 at slot 4, 6 at slot 6, 8 at slot 0) and iterates slots in ascending
order, so iteration visits 8, then 4, then 6. -/
def VALID_DURATIONS_ordered : List Int := [8, 4, 6]

/-- Python `min(xs, key=k)` over a nonempty iterable given as head and tail:
keeps the earliest element whose key is minimal (later elements replace the
current best only on a strictly smaller key). -/
def py_min_by (key : Int → Nat) (x : Int) (xs : List Int) : Int :=
  xs.foldl (fun best y => if key y < key best then y else best) x

/-- Embedding of `nearest_valid_duration(d) = min(VALID_DURATIONS, key=lambda x: abs(x - d))`. -/
def nearest_valid_duration (d : Int) : Int :=
  py_min_by (fun x => (x - d).natAbs) (VALID_DURATIONS_ordered.headD 0)
    VALID_DURATIONS_ordered.tail

/-- Embedding of `types.Image`: raw bytes plus a MIME type. -/
structure PyImage where
  image_bytes : List Nat
  mime_type : String
deriving DecidableEq, Repr

/-- The `mime_map` literal from `load_image`. -/
def mime_map : List (String × String) :=
  [(".jpg", "image/jpeg"), (".jpeg", "image/jpeg"),
   (".png", "image/png"), (".webp", "image/webp")]

/-- Embedding of `load_image`: read the whole file (via the `readFile` oracle) and pick the
MIME type from the lowercased suffix of the path, defaulting to `image/png`. -/
def load_image (readFile : String → List Nat) (path : String) : PyImage :=
  { image_bytes := readFile path
    mime_type := (mime_map.lookup (pyLower (pySuffix (mkPath path).name))).getD "image/png" }

/-- Embedding of `types.VideoGenerationReferenceType`. -/
inductive RefType where
  | ASSET
  | STYLE
deriving DecidableEq, Repr

/-- Embedding of `types.VideoGenerationReferenceImage`. -/
structure VideoGenerationReferenceImage where
  image : PyImage
  reference_type : RefType
deriving DecidableEq, Repr

/-- A value stored in the `config_kwargs` dictionary. -/
inductive ConfigVal where
  | vInt (n : Int)
  | vBool (b : Bool)
  | vStr (s : String)
  | vRefs (rs : List VideoGenerationReferenceImage)
deriving DecidableEq, Repr

/-- The two reference-image loops in `main`: append each element path tagged
`ASSET`, then each style path tagged `STYLE`, onto an initially empty list. -/
def build_reference_images (readFile : String → List Nat)
    (elements styles : List String) : List VideoGenerationReferenceImage :=
  let refs := elements.foldl
    (fun acc path => acc ++ [⟨load_image readFile path, RefType.ASSET⟩]) []
  styles.foldl
    (fun acc path => acc ++ [⟨load_image readFile path, RefType.STYLE⟩]) refs

/-- The dictionary `config_kwargs` as built in `main`, in insertion order: the three
unconditional entries, then `enhance_prompt` only for models whose name
starts with `veo-2`, then the truthiness-guarded optional entries, then
`reference_images` only when the list is nonempty. -/
def build_config (model : String) (count duration : Int) (aspect_ratio : String)
    (resolution negative_prompt person_generation : Option String)
    (reference_images : List VideoGenerationReferenceImage) :
    List (String × ConfigVal) :=
  [("number_of_videos", ConfigVal.vInt count),
   ("duration_seconds", ConfigVal.vInt duration),
   ("aspect_ratio", ConfigVal.vStr aspect_ratio)]
  ++ (if py_startswith model "veo-2" then [("enhance_prompt", ConfigVal.vBool true)] else [])
  ++ (if pyTruthyStr resolution then [("resolution", ConfigVal.vStr (resolution.getD ""))] else [])
  ++ (if pyTruthyStr negative_prompt then
        [("negative_prompt", ConfigVal.vStr (negative_prompt.getD ""))] else [])
  ++ (if pyTruthyStr person_generation then
        [("person_generation", ConfigVal.vStr (person_generation.getD ""))] else [])
  ++ (if reference_images.isEmpty then [] else
        [("reference_images", ConfigVal.vRefs reference_images)])

/-- One `video.video` object of the operation result: optional inline bytes
and optional remote URI. -/
structure Video where
  video_bytes : Option (List Nat)
  uri : Option String
deriving DecidableEq, Repr

/-- What the download loop does with one result item. -/
inductive ItemResult where
  | savedBytes (out : PyPath) (bytes : List Nat)
  | savedUri (out : PyPath) (url : String)
  | skipped (index : Nat)
deriving DecidableEq, Repr

/-- The URL for a remote URI: append `&key=<api_key>` when the URI already
contains a `?`, else `?key=<api_key>`. -/
def add_key (uri api_key : String) : String :=
  if py_contains uri '?' then uri ++ "&key=" ++ api_key else uri ++ "?key=" ++ api_key

/-- The per-item output path: for `count > 1`,
`output_path.parent / (stem + "-" + (i+1) + (suffix or ".mp4"))`;
otherwise the supplied path itself, with `.mp4` added when it has no suffix. -/
def out_path_for (count : Int) (output_path : PyPath) (i : Nat) : PyPath :=
  if count > 1 then
    ⟨output_path.parent,
     pyStem output_path.name ++ "-" ++ toString (i + 1) ++
       (let s := pySuffix output_path.name; if s == "" then ".mp4" else s)⟩
  else
    if pySuffix output_path.name == "" then with_suffix output_path ".mp4"
    else output_path

/-- The body of the download loop for item `i`: write inline bytes if truthy,
else fetch the URI (with the key appended) if truthy, else print a per-item
error and `continue`. -/
def resolve_item (api_key : String) (count : Int) (output_path : PyPath)
    (i : Nat) (v : Video) : ItemResult :=
  let out := out_path_for count output_path i
  if pyTruthyBytes v.video_bytes then ItemResult.savedBytes out (v.video_bytes.getD [])
  else if pyTruthyStr v.uri then ItemResult.savedUri out (add_key (v.uri.getD "") api_key)
  else ItemResult.skipped i

/-- The whole `for i, video in enumerate(...)` loop. -/
def resolve_items (api_key : String) (count : Int) (output_path : PyPath)
    (videos : List Video) : List ItemResult :=
  videos.enum.foldl
    (fun acc iv => acc ++ [resolve_item api_key count output_path iv.1 iv.2]) []

/-- The `saved` list: output paths of the items that were not skipped, in order. -/
def saved_paths (rs : List ItemResult) : List PyPath :=
  rs.filterMap fun r =>
    match r with
    | ItemResult.savedBytes out _ => some out
    | ItemResult.savedUri out _ => some out
    | ItemResult.skipped _ => none

/-- Number of per-item `Error: no video data` warnings printed by the loop. -/
def skipped_count (rs : List ItemResult) : Nat :=
  rs.countP fun r =>
    match r with
    | ItemResult.skipped _ => true
    | _ => false

/-- Observable outcome of `main` after the polling loop finishes. -/
structure RunResult where
  exitCode : Int
  noResultsError : Bool
  items : List ItemResult
deriving DecidableEq, Repr

/-- Lines 213–241 of `main`: if the operation has no response or an empty
`generated_videos` list, print the no-results error and `sys.exit(1)`;
otherwise run the download loop and fall off the end of `main` (exit 0 —
the final print indexes `saved[0]` only when exactly one path was saved,
so it never faults). `none` covers both a missing response and a missing
item list; `some []` is an empty item list. -/
def after_poll (api_key : String) (count : Int) (filename : String)
    (generated_videos : Option (List Video)) : RunResult :=
  match generated_videos with
  | none => { exitCode := 1, noResultsError := true, items := [] }
  | some [] => { exitCode := 1, noResultsError := true, items := [] }
  | some videos =>
      { exitCode := 0, noResultsError := false
        items := resolve_items api_key count (mkPath filename) videos }

end GenerateVideo

namespace GenerateVideo

/-- A fold that appends one mapped element per step is `init ++ map`. -/
theorem foldl_append_map {α β : Type} (f : α → β) (l : List α) (init : List β) :
    l.foldl (fun acc x => acc ++ [f x]) init = init ++ l.map f := by
  induction l generalizing init with
  | nil => simp
  | cons a as ih => simp [List.foldl_cons, ih]

/-- The download loop is the map of `resolve_item` over the enumerated items. -/
theorem resolve_items_eq_map (api_key : String) (count : Int) (p : PyPath)
    (videos : List Video) :
    resolve_items api_key count p videos =
      videos.enum.map fun iv => resolve_item api_key count p iv.1 iv.2 := by
  unfold resolve_items
  simpa using
    foldl_append_map (fun iv => resolve_item api_key count p iv.1 iv.2) videos.enum []

/-- A name with an empty `pathlib` suffix is its own stem. -/
theorem pyStem_eq_of_suffix_empty {n : String} (h : pySuffix n = "") : pyStem n = n := by
  simp only [pySuffix] at h
  simp only [pyStem]
  cases hfind : rfindIdx '.' n.toList with
  | none => rfl
  | some i =>
    rw [hfind] at h
    dsimp only at h ⊢
    by_cases hc : 0 < i ∧ i + 1 < n.toList.length
    · rw [if_pos hc] at h
      have hdata : n.toList.drop i = [] := congrArg String.data h
      have hlen : n.toList.length ≤ i := by
        have := congrArg List.length hdata
        simp only [List.length_drop, List.length_nil] at this
        omega
      exact (by omega : False).elim
    · rw [if_neg hc]

end GenerateVideo

namespace GenerateVideo

/-- C7: a string whose lowercased form is an alias key resolves to the exact
mapped canonical model id; any other string passes through unchanged, so
`resolve_model` is total and never fails. -/
theorem C7_resolve_model_contract :
    (∀ s m, MODEL_ALIASES.lookup (pyLower s) = some m → resolve_model s = m) ∧
    (∀ s, MODEL_ALIASES.lookup (pyLower s) = none → resolve_model s = s) := by
  constructor
  · intro s m h
    simp [resolve_model, h]
  · intro s h
    simp [resolve_model, h]

/-- C7 witness: `"FAST"` hits the alias table; `"my-model"` passes through. -/
theorem C7_resolve_model_contract_witness :
    resolve_model "FAST" = "veo-3.1-fast-generate-preview" ∧
    resolve_model "my-model" = "my-model" :=
  ⟨C7_resolve_model_contract.1 "FAST" "veo-3.1-fast-generate-preview" (by decide),
   C7_resolve_model_contract.2 "my-model" (by decide)⟩

/-- C6: a missing response or an empty generated-videos list yields the
no-results error, exit status 1 and zero files written. -/
theorem C6_no_results_exit (api_key : String) (count : Int) (filename : String) :
    (after_poll api_key count filename none).exitCode = 1 ∧
    (after_poll api_key count filename none).noResultsError = true ∧
    saved_paths (after_poll api_key count filename none).items = [] ∧
    (after_poll api_key count filename (some [])).exitCode = 1 ∧
    (after_poll api_key count filename (some [])).noResultsError = true ∧
    saved_paths (after_poll api_key count filename (some [])).items = [] :=
  ⟨rfl, rfl, rfl, rfl, rfl, rfl⟩

/-- C5 counterexample: a one-item result list whose item has neither bytes nor
a URI leaves `saved` empty, yet the process exits 0 — not the non-zero exit
the claim requires. -/
theorem C5_counterexample_exit_zero :
    (after_poll "key" 1 "out.mp4" (some [⟨none, none⟩])).exitCode = 0 ∧
    saved_paths (after_poll "key" 1 "out.mp4" (some [⟨none, none⟩])).items = [] ∧
    skipped_count (after_poll "key" 1 "out.mp4" (some [⟨none, none⟩])).items = 1 := by
  decide

/-- C5 amended: once the operation returns a non-empty item list, the process
always exits 0 — per-item soft failures never force a non-zero exit, even when
they leave zero saved files. -/
theorem C5_exit_zero_amended (api_key : String) (count : Int) (filename : String)
    (videos : List Video) (h : videos ≠ []) :
    (after_poll api_key count filename (some videos)).exitCode = 0 := by
  cases videos with
  | nil => exact absurd rfl h
  | cons v vs => rfl

/-- C5 amended witness: the all-items-skipped run exits 0. -/
theorem C5_exit_zero_amended_witness :
    (after_poll "k" 1 "out" (some [⟨none, none⟩])).exitCode = 0 :=
  C5_exit_zero_amended "k" 1 "out" [⟨none, none⟩] (by decide)

/-- C3 counterexample: the claim requires `nearest_valid_duration 7 = 6`
(lower value on a tie), but the code returns 8. -/
theorem C3_counterexample_seven :
    nearest_valid_duration 7 = 8 ∧ ¬ nearest_valid_duration 7 = 6 := by
  decide

/-- C3 amended: `nearest_valid_duration` always lands in the permitted set
with minimal distance; ties go to the value visited first in the set's
CPython iteration order (8, 4, 6), so 5 snaps down to 4 but 7 snaps up to 8. -/
theorem C3_nearest_duration_amended :
    (∀ d : Int, nearest_valid_duration d ∈ ([4, 6, 8] : List Int) ∧
      ∀ x ∈ ([4, 6, 8] : List Int),
        (nearest_valid_duration d - d).natAbs ≤ (x - d).natAbs) ∧
    nearest_valid_duration 5 = 4 ∧ nearest_valid_duration 7 = 8 := by
  refine ⟨fun d => ?_, by decide, by decide⟩
  simp only [nearest_valid_duration, py_min_by, VALID_DURATIONS_ordered, List.headD,
    List.tail_cons, List.foldl_cons, List.foldl_nil]
  constructor
  · split_ifs <;> simp
  · intro x hx
    simp only [List.mem_cons, List.not_mem_nil, or_false] at hx
    split_ifs <;> rcases hx with rfl | rfl | rfl <;> omega

/-- C3 amended witness: at 5 the result is in the set and no farther from 5
than 6 is. -/
theorem C3_nearest_duration_amended_witness :
    nearest_valid_duration 5 ∈ ([4, 6, 8] : List Int) ∧
    (nearest_valid_duration 5 - 5).natAbs ≤ ((6 : Int) - 5).natAbs :=
  ⟨(C3_nearest_duration_amended.1 5).1,
   (C3_nearest_duration_amended.1 5).2 6 (by decide)⟩

end GenerateVideo

namespace GenerateVideo

/-- C4: per-item three-way resolution — truthy inline bytes are written
verbatim to the computed path; otherwise a truthy URI is fetched with the
key appended after `&` when the URI already contains `?` and after `?`
otherwise; otherwise the item is skipped; and the mixed two-item scenario
saves exactly one file with exactly one skipped-item warning, leaving a
non-empty saved list. -/
theorem C4_item_resolution (api_key : String) (count : Int) (p : PyPath)
    (i : Nat) (v : Video) :
    (pyTruthyBytes v.video_bytes = true →
      resolve_item api_key count p i v =
        ItemResult.savedBytes (out_path_for count p i) (v.video_bytes.getD [])) ∧
    (pyTruthyBytes v.video_bytes = false → pyTruthyStr v.uri = true →
      resolve_item api_key count p i v =
        ItemResult.savedUri (out_path_for count p i)
          (if py_contains (v.uri.getD "") '?' = true then
            v.uri.getD "" ++ "&key=" ++ api_key
           else v.uri.getD "" ++ "?key=" ++ api_key)) ∧
    (pyTruthyBytes v.video_bytes = false → pyTruthyStr v.uri = false →
      resolve_item api_key count p i v = ItemResult.skipped i) ∧
    (saved_paths (resolve_items "k" 1 (mkPath "out.mp4")
        [⟨some [1, 2], none⟩, ⟨none, none⟩])).length = 1 ∧
    skipped_count (resolve_items "k" 1 (mkPath "out.mp4")
        [⟨some [1, 2], none⟩, ⟨none, none⟩]) = 1 ∧
    saved_paths (resolve_items "k" 1 (mkPath "out.mp4")
        [⟨some [1, 2], none⟩, ⟨none, none⟩]) ≠ [] := by
  refine ⟨?_, ?_, ?_, by decide, by decide, by decide⟩
  · intro h
    simp [resolve_item, h]
  · intro h h'
    simp [resolve_item, add_key, h, h']
  · intro h h'
    simp [resolve_item, h, h']

/-- C4 witness: the three branches at concrete items. -/
theorem C4_item_resolution_witness :
    resolve_item "k" 1 (mkPath "o.mp4") 0 ⟨some [7], none⟩ =
      ItemResult.savedBytes (mkPath "o.mp4") [7] ∧
    resolve_item "k" 1 (mkPath "o.mp4") 1 ⟨none, some "http://u"⟩ =
      ItemResult.savedUri (mkPath "o.mp4") "http://u?key=k" ∧
    resolve_item "k" 1 (mkPath "o.mp4") 2 ⟨none, none⟩ = ItemResult.skipped 2 := by
  refine ⟨?_, ?_, ?_⟩
  · exact ((C4_item_resolution "k" 1 (mkPath "o.mp4") 0 ⟨some [7], none⟩).1
      (by decide)).trans (by decide)
  · exact (((C4_item_resolution "k" 1 (mkPath "o.mp4") 1 ⟨none, some "http://u"⟩).2.1
      (by decide)) (by decide)).trans (by decide)
  · exact (((C4_item_resolution "k" 1 (mkPath "o.mp4") 2 ⟨none, none⟩).2.2.1
      (by decide)) (by decide)).trans (by decide)

end GenerateVideo

namespace GenerateVideo

/-- C1: after model resolution, the `enhance_prompt` key is structurally
absent from the built config for every model outside the `veo-2` family, and
present (set to `True`) for every model inside it. -/
theorem C1_enhance_prompt_family (name : String) (count duration : Int)
    (aspect_ratio : String) (resolution negative_prompt person_generation : Option String)
    (refs : List VideoGenerationReferenceImage) :
    (py_startswith (resolve_model name) "veo-2" = false →
      "enhance_prompt" ∉
        (build_config (resolve_model name) count duration aspect_ratio resolution
            negative_prompt person_generation refs).map Prod.fst) ∧
    (py_startswith (resolve_model name) "veo-2" = true →
      ("enhance_prompt", ConfigVal.vBool true) ∈
        build_config (resolve_model name) count duration aspect_ratio resolution
          negative_prompt person_generation refs) := by
  constructor
  · intro h hmem
    rw [build_config, h] at hmem
    split_ifs at hmem <;> simp_all
  · intro h
    rw [build_config, h]
    simp

/-- C1 witness: `fast` resolves outside the family and the key is absent;
`2.0` resolves inside it and the entry is present. -/
theorem C1_enhance_prompt_family_witness :
    "enhance_prompt" ∉
      (build_config (resolve_model "fast") 1 8 "16:9" none none none []).map Prod.fst ∧
    ("enhance_prompt", ConfigVal.vBool true) ∈
      build_config (resolve_model "2.0") 1 8 "16:9" none none none [] :=
  ⟨(C1_enhance_prompt_family "fast" 1 8 "16:9" none none none []).1 (by decide),
   (C1_enhance_prompt_family "2.0" 1 8 "16:9" none none none []).2 (by decide)⟩

end GenerateVideo

namespace GenerateVideo

/-- C2: for a single requested video the supplied path is used as-is when it
has an extension and gets `.mp4` appended when it has none; for more than one
requested video, item `i` (1-indexed) goes to
`parent / (stem + "-" + i + (extension or ".mp4"))`. -/
theorem C2_output_path_rule (p : PyPath) (i : Nat) (count : Int) :
    (pySuffix p.name = "" →
      out_path_for 1 p i = ⟨p.parent, p.name ++ ".mp4"⟩) ∧
    (pySuffix p.name ≠ "" → out_path_for 1 p i = p) ∧
    (1 < count → out_path_for count p i =
      ⟨p.parent, pyStem p.name ++ "-" ++ toString (i + 1) ++
        (if pySuffix p.name = "" then ".mp4" else pySuffix p.name)⟩) := by
  refine ⟨?_, ?_, ?_⟩
  · intro h
    simp only [out_path_for]
    rw [if_neg (by omega : ¬ (1 : Int) > 1), if_pos (by simp [h]),
      with_suffix, pyStem_eq_of_suffix_empty h]
  · intro h
    simp only [out_path_for]
    rw [if_neg (by omega : ¬ (1 : Int) > 1), if_neg (by simp [h])]
  · intro h
    simp only [out_path_for]
    rw [if_pos (by omega : count > 1)]
    by_cases hs : pySuffix p.name = "" <;> simp [hs]

/-- C2 witness: the three spec examples — `out` becomes `out.mp4`, `out.webm`
is kept, and count 3 with `clip.mp4` yields `clip-1.mp4` … `clip-3.mp4`. -/
theorem C2_output_path_rule_witness :
    out_path_for 1 (mkPath "out") 0 = ⟨".", "out.mp4"⟩ ∧
    out_path_for 1 (mkPath "out.webm") 0 = ⟨".", "out.webm"⟩ ∧
    out_path_for 3 (mkPath "clip.mp4") 0 = ⟨".", "clip-1.mp4"⟩ ∧
    out_path_for 3 (mkPath "clip.mp4") 1 = ⟨".", "clip-2.mp4"⟩ ∧
    out_path_for 3 (mkPath "clip.mp4") 2 = ⟨".", "clip-3.mp4"⟩ :=
  ⟨((C2_output_path_rule (mkPath "out") 0 3).1 (by decide)).trans (by decide),
   ((C2_output_path_rule (mkPath "out.webm") 0 3).2.1 (by decide)).trans (by decide),
   ((C2_output_path_rule (mkPath "clip.mp4") 0 3).2.2 (by decide)).trans (by decide),
   ((C2_output_path_rule (mkPath "clip.mp4") 1 3).2.2 (by decide)).trans (by decide),
   ((C2_output_path_rule (mkPath "clip.mp4") 2 3).2.2 (by decide)).trans (by decide)⟩

end GenerateVideo

namespace GenerateVideo

/-- C8: the loaded image's MIME type comes from the lowercased extension:
`.jpg`/`.jpeg` give `image/jpeg`, `.png` gives `image/png`, `.webp` gives
`image/webp`, and any other (or missing) extension gives `image/png`. -/
theorem C8_mime_from_extension (readFile : String → List Nat) (path : String) :
    (pyLower (pySuffix (mkPath path).name) = ".jpg" →
      (load_image readFile path).mime_type = "image/jpeg") ∧
    (pyLower (pySuffix (mkPath path).name) = ".jpeg" →
      (load_image readFile path).mime_type = "image/jpeg") ∧
    (pyLower (pySuffix (mkPath path).name) = ".png" →
      (load_image readFile path).mime_type = "image/png") ∧
    (pyLower (pySuffix (mkPath path).name) = ".webp" →
      (load_image readFile path).mime_type = "image/webp") ∧
    (pyLower (pySuffix (mkPath path).name) ∉
        ([".jpg", ".jpeg", ".png", ".webp"] : List String) →
      (load_image readFile path).mime_type = "image/png") := by
  refine ⟨?_, ?_, ?_, ?_, ?_⟩
  · intro h; simp only [load_image]; rw [h]; decide
  · intro h; simp only [load_image]; rw [h]; decide
  · intro h; simp only [load_image]; rw [h]; decide
  · intro h; simp only [load_image]; rw [h]; decide
  · intro h
    obtain ⟨h1, h2, h3, h4⟩ : pyLower (pySuffix (mkPath path).name) ≠ ".jpg" ∧
        pyLower (pySuffix (mkPath path).name) ≠ ".jpeg" ∧
        pyLower (pySuffix (mkPath path).name) ≠ ".png" ∧
        pyLower (pySuffix (mkPath path).name) ≠ ".webp" := by simpa using h
    simp only [load_image, mime_map, List.lookup]
    rw [beq_eq_false_iff_ne.mpr h1, beq_eq_false_iff_ne.mpr h2,
      beq_eq_false_iff_ne.mpr h3, beq_eq_false_iff_ne.mpr h4]
    rfl

/-- C8 witness: uppercase `.JPG` maps to jpeg, `.gif` falls back to png. -/
theorem C8_mime_from_extension_witness :
    (load_image (fun _ => [1]) "photo.JPG").mime_type = "image/jpeg" ∧
    (load_image (fun _ => [1]) "photo.gif").mime_type = "image/png" :=
  ⟨(C8_mime_from_extension (fun _ => [1]) "photo.JPG").1 (by decide),
   (C8_mime_from_extension (fun _ => [1]) "photo.gif").2.2.2.2 (by decide)⟩

end GenerateVideo

namespace GenerateVideo

/-- The `reference_images` key is in the built config exactly when the
reference list is nonempty. -/
theorem reference_images_key_iff (model : String) (count duration : Int)
    (aspect_ratio : String) (resolution negative_prompt person_generation : Option String)
    (refs : List VideoGenerationReferenceImage) :
    "reference_images" ∈ (build_config model count duration aspect_ratio resolution
        negative_prompt person_generation refs).map Prod.fst ↔ refs ≠ [] := by
  constructor
  · intro hmem
    rw [build_config] at hmem
    split_ifs at hmem <;> simp_all
  · intro h
    have he : refs.isEmpty = false := by
      cases refs with
      | nil => exact absurd rfl h
      | cons a as => rfl
    rw [build_config]
    simp [he]

/-- C9: the reference list is all element paths tagged `ASSET` in caller
order followed by all style paths tagged `STYLE` in caller order, and the
`reference_images` field exists in the config exactly when at least one
reference path was supplied. -/
theorem C9_reference_images_order (readFile : String → List Nat)
    (elements styles : List String) (model : String) (count duration : Int)
    (aspect_ratio : String) (resolution negative_prompt person_generation : Option String) :
    build_reference_images readFile elements styles =
      elements.map (fun path => ⟨load_image readFile path, RefType.ASSET⟩) ++
        styles.map (fun path => ⟨load_image readFile path, RefType.STYLE⟩) ∧
    ("reference_images" ∈
        (build_config model count duration aspect_ratio resolution negative_prompt
          person_generation (build_reference_images readFile elements styles)).map
            Prod.fst ↔
      (elements ≠ [] ∨ styles ≠ [])) := by
  have h1 : build_reference_images readFile elements styles =
      elements.map (fun path => ⟨load_image readFile path, RefType.ASSET⟩) ++
        styles.map (fun path => ⟨load_image readFile path, RefType.STYLE⟩) := by
    unfold build_reference_images
    rw [foldl_append_map, foldl_append_map]
    simp
  refine ⟨h1, ?_⟩
  rw [reference_images_key_iff, h1]
  constructor
  · intro h
    by_contra hno
    push_neg at hno
    simp [hno.1, hno.2] at h
  · intro h hnil
    rcases List.append_eq_nil.mp hnil with ⟨he, hs⟩
    rcases h with h | h
    · exact h (List.map_eq_nil_iff.mp he)
    · exact h (List.map_eq_nil_iff.mp hs)

end GenerateVideo

namespace GenerateVideo

/-- C10: when the requested count is at most 1, the naming branch ignores the
item index, so every returned item maps to the same output path and the saved
list is that single path repeated once per resolved item. -/
theorem C10_single_count_overwrites (count : Int) (hc : count ≤ 1)
    (api_key : String) (p : PyPath) (videos : List Video) (i j : Nat) :
    out_path_for count p i = out_path_for count p j ∧
    saved_paths (resolve_items api_key count p videos) =
      List.replicate (saved_paths (resolve_items api_key count p videos)).length
        (out_path_for count p 0) := by
  have hng : ¬ count > 1 := by omega
  have hsame : ∀ a b : Nat, out_path_for count p a = out_path_for count p b := by
    intro a b
    simp only [out_path_for, if_neg hng]
  refine ⟨hsame i j, ?_⟩
  apply List.eq_replicate_of_mem
  intro b hb
  rw [resolve_items_eq_map] at hb
  simp only [saved_paths, List.mem_filterMap] at hb
  obtain ⟨r, hr, hg⟩ := hb
  rw [List.mem_map] at hr
  obtain ⟨iv, hiv, rfl⟩ := hr
  unfold resolve_item at hg
  split_ifs at hg <;> simp only [Option.some.injEq] at hg
  · rw [← hg]
    exact hsame iv.1 0
  · rw [← hg]
    exact hsame iv.1 0

/-- C10 witness: count 1 with two bytes-bearing returned items saves the same
path twice. -/
theorem C10_single_count_overwrites_witness :
    saved_paths (resolve_items "k" 1 (mkPath "out.mp4")
        [⟨some [1], none⟩, ⟨some [2], none⟩]) =
      List.replicate 2 (mkPath "out.mp4") :=
  ((C10_single_count_overwrites 1 (by decide) "k" (mkPath "out.mp4")
      [⟨some [1], none⟩, ⟨some [2], none⟩] 0 1).2).trans (by decide)

end GenerateVideo
